import Mathlib

/-
Verification of the PlotThePlot analysis pipeline (src/api/index.py and
src/api/database.py) against its natural-language specification.

The Python source is shallowly embedded: every network interaction (HTTP
fetches, LLM calls, database writes) is represented by an explicit oracle
argument giving the outcome the external collaborator would produce, and
each Python function's control flow is translated statement by statement
into a pure Lean function over those oracles.  JSON values (Python dicts
produced by the Gemini function-call channel) are modelled by the inductive
type JValue; Python exceptions by PyErr, keeping the ValueError / other
distinction that the Flask handler's except clauses dispatch on.
-/

/-- Model of a JSON-like Python value: the dict/list/str/num/bool/None data
that flows through the pipeline (extraction results, response bodies).
Object fields are kept in insertion order, as Python dicts do. -/
inductive JValue where
  | vNull
  | vBool (b : Bool)
  | vNum (n : Int)
  | vStr (s : String)
  | vArr (xs : List JValue)
  | vObj (fields : List (String × JValue))

/-- Python truthiness (`if not book_id`, `if validate_flag`): None, False,
0, empty string, empty list and empty dict are falsy. -/
def pyTruthy : JValue → Bool
  | .vNull => false
  | .vBool b => b
  | .vNum n => decide (n ≠ 0)
  | .vStr s => !(s.data.isEmpty)
  | .vArr xs => !(xs.isEmpty)
  | .vObj fs => !(fs.isEmpty)

/-- Whether a value's top level is a mapping: Python `isinstance(parsed, dict)`. -/
def JValue.isObj : JValue → Bool
  | .vObj _ => true
  | _ => false

/-- Lookup of a key in an object's field list (first occurrence); `none` when
the value is not an object or the key is absent. -/
def jgetOpt (k : String) : JValue → Option JValue
  | .vObj fs => go fs
  | _ => none
where
  go : List (String × JValue) → Option JValue
    | [] => none
    | (k1, v) :: rest => if k1 = k then some v else go rest

/-- Python dict assignment `d[k] = v`: replace the value in place when the key
exists, append the pair otherwise. -/
def dictSet : List (String × JValue) → String → JValue → List (String × JValue)
  | [], k, v => [(k, v)]
  | (k1, v1) :: rest, k, v =>
    if k1 = k then (k, v) :: rest else (k1, v1) :: dictSet rest k v

/-- Assignment `j[k] = v` on a JValue.  The pipeline only applies it to values
whose top level is a mapping (guaranteed by the extraction orchestrator's
isinstance check); on non-objects it is the identity. -/
def jset (j : JValue) (k : String) (v : JValue) : JValue :=
  match j with
  | .vObj fs => .vObj (dictSet fs k v)
  | other => other

/-- Model of a Python exception, keeping only the distinction the analyze
endpoint's except clauses dispatch on: ValueError (caught specifically and
mapped to a 400 reply with the exception's message) versus any other
exception (caught by the generic handler and mapped to a 500 reply). -/
inductive PyErr where
  | valueError (msg : String)
  | otherError (msg : String)
deriving DecidableEq

/-- Bibliographic metadata returned by fetch_gutenberg_metadata:
the dict with keys title and author. -/
structure Metadata where
  title : String
  author : String
deriving DecidableEq

/-- Observable trace of one retry loop execution: how many times the loop body
was entered, the sleep durations issued between attempts (in order), and the
final outcome (the returned value, or the exception propagated by the bare
raise on the last attempt). -/
structure RunResult (α : Type) where
  attempts : Nat
  sleeps : List Nat
  outcome : Except PyErr α

/-- The retry loop shared by PlotThePlot.analyze_text and
PlotThePlot.validate_json (index.py lines 170-182 and 237-247):

    for attempt in range(self.max_retries):
        try:
            ...body...
            return parsed
        except Exception as e:
            if attempt < self.max_retries - 1:
                time.sleep(self.retry_delay)
            else:
                raise

body i is the outcome of the try block on attempt i (an oracle covering the
LLM call, response parsing, and any body-level checks).  remaining counts the
loop iterations still available, so attempt < max_retries - 1 in the source
corresponds to remaining > 1 here. -/
def retryGo {α : Type} (delay : Nat) (body : Nat → Except PyErr α)
    (attempt : Nat) : Nat → RunResult α
  | 0 => ⟨0, [], .error (.otherError "retry loop body never entered")⟩
  | remaining + 1 =>
    match body attempt with
    | .ok v => ⟨1, [], .ok v⟩
    | .error e =>
      match remaining with
      | 0 => ⟨1, [], .error e⟩
      | r + 1 =>
        let rest := retryGo delay body (attempt + 1) (r + 1)
        ⟨rest.attempts + 1, delay :: rest.sleeps, rest.outcome⟩

/-- Entry point of the retry loop: attempts start at 0 with max_retries
iterations available. -/
def retryLoop {α : Type} (maxRetries delay : Nat)
    (body : Nat → Except PyErr α) : RunResult α :=
  retryGo delay body 0 maxRetries

/-- Configuration of the PlotThePlot class (index.py lines 45-50). -/
structure PlotThePlot where
  api_key : String
  model_name : String
  max_retries : Nat
  retry_delay : Nat

/-- PlotThePlot.__init__: max_retries and retry_delay are always 5. -/
def PlotThePlot.make (api_key : String) (model_name : String) : PlotThePlot :=
  ⟨api_key, model_name, 5, 5⟩

/-- Try-block body of one analyze_text attempt (index.py lines 171-177): the
oracle gives the outcome of model.generate_content plus extraction of the
function-call args (an exception, or the parsed payload); the body then
raises ValueError("Response is not a JSON object.") when the payload's top
level is not a dict, and returns the payload otherwise.  No other shape
check (in particular no required-field check) is performed. -/
def analyzeTextAttempt (oracle : Nat → Except PyErr JValue) (i : Nat) :
    Except PyErr JValue :=
  match oracle i with
  | .error e => .error e
  | .ok parsed =>
    if parsed.isObj then .ok parsed
    else .error (.valueError "Response is not a JSON object.")

/-- PlotThePlot.analyze_text (index.py lines 156-182), as its retry-loop
trace over the LLM oracle. -/
def analyze_text (p : PlotThePlot) (oracle : Nat → Except PyErr JValue) :
    RunResult JValue :=
  retryLoop p.max_retries p.retry_delay (analyzeTextAttempt oracle)

/-- Try-block body of one validate_json attempt (index.py lines 238-242): the
parsed function-call args are returned as-is — unlike analyze_text there is
no isinstance check nor any other payload-shape check. -/
def validateAttempt (oracle : Nat → Except PyErr JValue) (i : Nat) :
    Except PyErr JValue :=
  oracle i

/-- Embedding of Python slicing s[:n] (Python slices strings by character,
matching String.data here). -/
def pySlice (s : String) (n : Nat) : String := ⟨s.data.take n⟩

/-- A run of n space characters, for json.dumps indentation. -/
def spaces (n : Nat) : String := ⟨List.replicate n ' '⟩

/-- Escaping of one character inside a JSON string literal, as json.dumps
performs it.  The \uXXXX forms for other control characters and non-ASCII
text are elided: no claim depends on them and the pipeline's claims never
inspect serialized content beyond its position in the prompt. -/
def jsonEscapeChar (c : Char) : String :=
  if c = '"' then "\\\""
  else if c = '\\' then "\\\\"
  else if c = '\n' then "\\n"
  else if c = '\t' then "\\t"
  else if c = '\r' then "\\r"
  else String.singleton c

/-- A JSON string literal with its surrounding quotes, as json.dumps emits it. -/
def jsonEscapeString (s : String) : String :=
  "\"" ++ String.join (s.data.map jsonEscapeChar) ++ "\""

mutual

/-- json.dumps(v, indent=2) at nesting indentation ind: objects and arrays
open a line, indent each member by two more spaces, and close at the current
indentation; empty containers print inline. -/
def jsonDumpsVal (ind : Nat) : JValue → String
  | .vNull => "null"
  | .vBool true => "true"
  | .vBool false => "false"
  | .vNum n => toString n
  | .vStr s => jsonEscapeString s
  | .vArr [] => "[]"
  | .vArr (x :: xs) =>
    "[\n" ++ jsonDumpsItems (ind + 2) (x :: xs) ++ "\n" ++ spaces ind ++ "]"
  | .vObj [] => "\x7b\x7d"
  | .vObj (f :: fs) =>
    "\x7b\n" ++ jsonDumpsFields (ind + 2) (f :: fs) ++ "\n" ++ spaces ind ++ "\x7d"

/-- Comma-and-newline separated array items, each indented by ind spaces. -/
def jsonDumpsItems (ind : Nat) : List JValue → String
  | [] => ""
  | [x] => spaces ind ++ jsonDumpsVal ind x
  | x :: y :: rest =>
    spaces ind ++ jsonDumpsVal ind x ++ ",\n" ++ jsonDumpsItems ind (y :: rest)

/-- Comma-and-newline separated object fields, each indented by ind spaces,
with the json.dumps key separator when indent is given. -/
def jsonDumpsFields (ind : Nat) : List (String × JValue) → String
  | [] => ""
  | [(k, v)] => spaces ind ++ jsonEscapeString k ++ ": " ++ jsonDumpsVal ind v
  | (k, v) :: g :: rest =>
    spaces ind ++ jsonEscapeString k ++ ": " ++ jsonDumpsVal ind v ++ ",\n" ++
      jsonDumpsFields ind (g :: rest)

end

/-- json.dumps(generated_json, indent=2) as used in the validation prompt. -/
def jsonDumps (v : JValue) : String := jsonDumpsVal 0 v

/-- PlotThePlot.get_schema (index.py lines 52-137): the fixed extraction
schema handed to the Gemini function-declaration channel. -/
def get_schema : JValue :=
  .vObj [
    ("type", .vStr "OBJECT"),
    ("properties", .vObj [
      ("characters", .vObj [
        ("type", .vStr "ARRAY"),
        ("description", .vStr "Extracted characters from the text."),
        ("items", .vObj [
          ("type", .vStr "OBJECT"),
          ("properties", .vObj [
            ("id", .vObj [
              ("type", .vStr "NUMBER"),
              ("description", .vStr "Unique integer identifying each character")]),
            ("common_name", .vObj [
              ("type", .vStr "STRING"),
              ("description", .vStr "The primary or most frequent name")]),
            ("main_character", .vObj [
              ("type", .vStr "BOOLEAN"),
              ("description", .vStr "True if major character in the story")]),
            ("names", .vObj [
              ("type", .vStr "ARRAY"),
              ("description", .vStr "All known aliases, nicknames, or titles"),
              ("items", .vObj [("type", .vStr "STRING")])]),
            ("traits", .vObj [
              ("type", .vStr "ARRAY"),
              ("description", .vStr "Key personality traits or defining characteristics of the character (e.g. brave, manipulative, loyal)"),
              ("items", .vObj [("type", .vStr "STRING")])]),
            ("description", .vObj [
              ("type", .vStr "STRING"),
              ("description", .vStr "Brief summary of this character's role")])]),
          ("required", .vArr [.vStr "id", .vStr "common_name",
            .vStr "main_character", .vStr "names"])])]),
      ("relations", .vObj [
        ("type", .vStr "ARRAY"),
        ("description", .vStr "List of relationships among characters."),
        ("items", .vObj [
          ("type", .vStr "OBJECT"),
          ("properties", .vObj [
            ("id1", .vObj [
              ("type", .vStr "NUMBER"),
              ("description", .vStr "ID of the first character")]),
            ("id2", .vObj [
              ("type", .vStr "NUMBER"),
              ("description", .vStr "ID of the second character")]),
            ("id1_to_id2_role", .vObj [
              ("type", .vStr "STRING"),
              ("description", .vStr "Role of id1 toward id2 (e.g., 'father', 'mentor', 'enemy')")]),
            ("id2_to_id1_role", .vObj [
              ("type", .vStr "STRING"),
              ("description", .vStr "Role of id2 toward id1 (e.g., 'son', 'disciple', 'rival')")]),
            ("weight", .vObj [
              ("type", .vStr "NUMBER"),
              ("description", .vStr "Strength or importance of the relationship (1 to 10)")]),
            ("key_dialogs", .vObj [
              ("type", .vStr "ARRAY"),
              ("description", .vStr "Up to two short lines or dialogues from the text that highlight significance"),
              ("items", .vObj [("type", .vStr "STRING")])])]),
          ("required", .vArr [.vStr "id1", .vStr "id2",
            .vStr "id1_to_id2_role", .vStr "id2_to_id1_role",
            .vStr "weight", .vStr "key_dialogs"])])]),
      ("summary", .vObj [
        ("type", .vStr "STRING"),
        ("description", .vStr "(A single human-readable paragraph or multi-paragraph block of plain text) A detailed natural language summary of the story including the main plot, key players, and act-level breakdown")])]),
    ("required", .vArr [.vStr "characters", .vStr "relations", .vStr "summary"])]

/-- PlotThePlot.get_validation_schema (index.py lines 184-212): the fixed
schema for the second, validating LLM pass. -/
def get_validation_schema : JValue :=
  .vObj [
    ("type", .vStr "OBJECT"),
    ("properties", .vObj [
      ("known_story", .vObj [
        ("type", .vStr "BOOLEAN"),
        ("description", .vStr "Whether the model recognizes and is familiar with the story")]),
      ("issues", .vObj [
        ("type", .vStr "ARRAY"),
        ("description", .vStr "List of hallucinations, inaccuracies, or missing elements in the structured JSON"),
        ("items", .vObj [("type", .vStr "STRING")])]),
      ("notes", .vObj [
        ("type", .vStr "STRING"),
        ("description", .vStr "General comments on the quality and accuracy of the JSON")]),
      ("score", .vObj [
        ("type", .vStr "INTEGER"),
        ("description", .vStr "Quality score between 0 and 10 indicating overall correctness and completeness")])]),
    ("required", .vArr [.vStr "known_story", .vStr "issues",
      .vStr "notes", .vStr "score"])]

/-- Top-level required-field list of a schema object: the strings in its
"required" array. -/
def requiredTopLevel (schema : JValue) : List String :=
  match jgetOpt "required" schema with
  | some (.vArr xs) =>
    xs.filterMap (fun v => match v with | .vStr s => some s | _ => none)
  | _ => []

/-- Whether a payload's top level contains every required field of a schema. -/
def hasRequiredTopLevel (schema payload : JValue) : Bool :=
  (requiredTopLevel schema).all (fun k => (jgetOpt k payload).isSome)

/-- The validation prompt of PlotThePlot.validate_json (index.py lines
216-225), translated literally; the braces of the inline JSON example are
the characters 0x7b and 0x7d. -/
def validate_prompt (story_text : String) (generated_json : JValue)
    (metadata : Metadata) : String :=
  "You are an expert literary analyst.\n\n" ++
  ("Based on the story '" ++ metadata.title ++ "' by " ++ metadata.author ++
    "', validate the extracted information below") ++
  "- Are the characters and relationships correctly reflected in the story?\n" ++
  "- Are any hallucinated (non-existent) elements present?\n" ++
  "- Are you familiar with the story and can verify the accuracy of this analysis?\n\n" ++
  "Return only a JSON object like this:\n" ++
  "\x7b\n  known_story: true or false,\n  issues: [list of hallucinated, missing, or inaccurate elements],\n  notes: a brief comment on the overall accuracy,\n  score: integer between 0 and 10\n\x7d\n\n" ++
  "STORY:\n" ++ pySlice story_text 8000 ++ "\n\nSTRUCTURED_JSON:\n" ++
  jsonDumps generated_json

/-- PlotThePlot.validate_json (index.py lines 214-247): builds the validation
prompt from the triple (story_text, generated_json, metadata) and runs
the same retry loop as analyze_text over the validation LLM oracle; returns
the prompt it sent, the retry trace, and the value of the generated_json
argument after the call — the body of validate_json never assigns into
generated_json (it is only read, by json.dumps), so that value is the
argument itself. -/
def validate_json (p : PlotThePlot) (story_text : String)
    (generated_json : JValue) (metadata : Metadata)
    (oracle : Nat → Except PyErr JValue) :
    String × RunResult JValue × JValue :=
  (validate_prompt story_text generated_json metadata,
   retryLoop p.max_retries p.retry_delay (validateAttempt oracle),
   generated_json)

/-- Response to one HTTP GET, as seen by requests.get: a status code and the
body text. -/
structure HttpResponse where
  status_code : Nat
  text : String
deriving DecidableEq

/-- Primary content URL of fetch_gutenberg_text (an f-string over book_id). -/
def primary_url (book_id : Int) : String :=
  "https://www.gutenberg.org/files/" ++ toString book_id ++ "/" ++
    toString book_id ++ ".txt"

/-- Fallback content URL of fetch_gutenberg_text. -/
def fallback_url (book_id : Int) : String :=
  "https://www.gutenberg.org/files/" ++ toString book_id ++ "/" ++
    toString book_id ++ "-0.txt"

/-- fetch_gutenberg_text (index.py lines 249-258) over an HTTP oracle mapping
each URL to the response the network would produce.  Returns the list of
URLs requested, in order, together with the result: the body of the first
response whose status code equals 200, or the ValueError "Could not fetch
text from Project Gutenberg." when both requests miss 200.  The comparison
in the source is status_code == 200 exactly, not a 2xx-range test. -/
def fetch_gutenberg_text (get : String → HttpResponse) (book_id : Int) :
    List String × Except PyErr String :=
  let resp := get (primary_url book_id)
  if resp.status_code = 200 then
    ([primary_url book_id], .ok resp.text)
  else
    let resp_fallback := get (fallback_url book_id)
    if resp_fallback.status_code = 200 then
      ([primary_url book_id, fallback_url book_id], .ok resp_fallback.text)
    else
      ([primary_url book_id, fallback_url book_id],
       .error (.valueError "Could not fetch text from Project Gutenberg."))

/-- Abstraction of the bibliographic HTML page fetched by
fetch_gutenberg_metadata: the content attribute of a meta tag with property
og:title when such a tag exists, and the stripped text of a link tagged
rel="marcrel:aut" when such a link exists (BeautifulSoup's find returns
None when the marker is absent). -/
structure MetaPage where
  ogTitle : Option String
  marcrelAut : Option String

/-- fetch_gutenberg_metadata (index.py lines 260-266).  When the og:title
meta tag is absent, soup.find returns None and the subscript None["content"]
raises TypeError; when the author link is absent, None.get_text raises
AttributeError.  Neither is a ValueError, so the analyze handler's generic
except branch receives them. -/
def fetch_gutenberg_metadata (page : MetaPage) : Except PyErr Metadata :=
  match page.ogTitle with
  | none => .error (.otherError "TypeError: NoneType object is not subscriptable")
  | some title =>
    match page.marcrelAut with
    | none => .error (.otherError "AttributeError: NoneType object has no attribute get_text")
    | some author => .ok ⟨title, author⟩

/-- Outcomes of the external collaborators consumed by one analyze request:
the metadata fetch, the text fetch, the two LLM oracles (per-attempt
outcomes for extraction and validation) and the database write of
db.add_search.  GEMINI_API_KEY is the environment value read at the
PlotThePlot construction site. -/
structure AnalyzeDeps where
  fetchMetadata : Except PyErr Metadata
  fetchText : Except PyErr String
  gemini_api_key : String
  extractOracle : Nat → Except PyErr JValue
  validateOracle : Nat → Except PyErr JValue
  addSearch : Except PyErr Unit

/-- External calls the analyze handler can issue, in the order they appear in
its body. -/
inductive Ev where
  | fetchMetadataEv
  | fetchTextEv
  | llmExtractEv
  | llmValidateEv
  | recordSearchEv
deriving DecidableEq

/-- The JSON error body jsonify({"error": msg}). -/
def errorBody (msg : String) : JValue := .vObj [("error", .vStr msg)]

/-- Status code the analyze handler's except clauses give an exception:
400 for ValueError, 500 otherwise (index.py lines 307-312). -/
def errStatus : PyErr → Nat
  | .valueError _ => 400
  | .otherError _ => 500

/-- Body of the analyze handler's error replies: the ValueError's own message
for the 400 branch, the generic message for the 500 branch. -/
def errReplyBody : PyErr → JValue
  | .valueError m => errorBody m
  | .otherError _ =>
    errorBody "An unexpected error occurred while analyzing the book. Please try again later."

/-- Observable outcome of one analyze request: the external calls issued in
order, the HTTP reply, and two snapshots of the single dict object returned
by analyze_text — its value at the moment analyze_text returned
(resultAtConstruction) and the value of that same object at the end of the
request (resultFinal).  The source mutates the object in place
(result["validation"] = ..., result["title"] = ...), so unequal snapshots
mean the ExtractionResult object was mutated after construction. -/
structure AnalyzeOutcome where
  events : List Ev
  status : Nat
  body : JValue
  resultAtConstruction : Option JValue
  resultFinal : Option JValue

/-- The analyze handler (index.py lines 268-312) after JWT authentication
has succeeded, over the collaborator outcomes in deps.  book_id and
validate_flag are the request-body values request.json.get("book_id") and
request.json.get("validate", False), with an absent key arriving as vNull;
user_id is the id from the decoded token.  The handler first rejects falsy
book_id with a 400 reply before issuing any external call, then runs
fetch_gutenberg_metadata, fetch_gutenberg_text, analyze_text, optionally
validate_json, db.add_search and the title insertion inside one try block
whose except clauses map a ValueError to a 400 reply carrying its message
and any other exception to a generic 500 reply. -/
def analyze (deps : AnalyzeDeps) (book_id validate_flag : JValue)
    (user_id : Int) : AnalyzeOutcome :=
  if pyTruthy book_id = false then
    ⟨[], 400, errorBody "Please provide a book ID to analyze", none, none⟩
  else
    match deps.fetchMetadata with
    | .error e =>
      ⟨[.fetchMetadataEv], errStatus e, errReplyBody e, none, none⟩
    | .ok metadata =>
      match deps.fetchText with
      | .error e =>
        ⟨[.fetchMetadataEv, .fetchTextEv], errStatus e, errReplyBody e, none, none⟩
      | .ok text =>
        let plotter := PlotThePlot.make deps.gemini_api_key "gemini-2.0-flash"
        let run := analyze_text plotter deps.extractOracle
        match run.outcome with
        | .error e =>
          ⟨[.fetchMetadataEv, .fetchTextEv, .llmExtractEv],
           errStatus e, errReplyBody e, none, none⟩
        | .ok result =>
          if pyTruthy validate_flag then
            let vcall := validate_json plotter text result metadata deps.validateOracle
            match vcall.2.1.outcome with
            | .error e =>
              ⟨[.fetchMetadataEv, .fetchTextEv, .llmExtractEv, .llmValidateEv],
               errStatus e, errReplyBody e, some result, some result⟩
            | .ok validation_result =>
              let result2 := jset result "validation" validation_result
              match deps.addSearch with
              | .error e =>
                ⟨[.fetchMetadataEv, .fetchTextEv, .llmExtractEv, .llmValidateEv,
                  .recordSearchEv],
                 errStatus e, errReplyBody e, some result, some result2⟩
              | .ok _ =>
                let result3 := jset result2 "title" (.vStr metadata.title)
                ⟨[.fetchMetadataEv, .fetchTextEv, .llmExtractEv, .llmValidateEv,
                  .recordSearchEv],
                 200, result3, some result, some result3⟩
          else
            match deps.addSearch with
            | .error e =>
              ⟨[.fetchMetadataEv, .fetchTextEv, .llmExtractEv, .recordSearchEv],
               errStatus e, errReplyBody e, some result, some result⟩
            | .ok _ =>
              let result3 := jset result "title" (.vStr metadata.title)
              ⟨[.fetchMetadataEv, .fetchTextEv, .llmExtractEv, .recordSearchEv],
               200, result3, some result, some result3⟩

/-- The part of the validation prompt that precedes the story segment:
everything up to and including "STORY:\n". -/
def validationPromptHead (metadata : Metadata) : String :=
  "You are an expert literary analyst.\n\n" ++
  ("Based on the story '" ++ metadata.title ++ "' by " ++ metadata.author ++
    "', validate the extracted information below") ++
  "- Are the characters and relationships correctly reflected in the story?\n" ++
  "- Are any hallucinated (non-existent) elements present?\n" ++
  "- Are you familiar with the story and can verify the accuracy of this analysis?\n\n" ++
  "Return only a JSON object like this:\n" ++
  "\x7b\n  known_story: true or false,\n  issues: [list of hallucinated, missing, or inaccurate elements],\n  notes: a brief comment on the overall accuracy,\n  score: integer between 0 and 10\n\x7d\n\n" ++
  "STORY:\n"

/-- The part of the validation prompt that follows the story segment: the
STRUCTURED_JSON header and the pretty-printed extraction result. -/
def validationPromptTail (generated_json : JValue) : String :=
  "\n\nSTRUCTURED_JSON:\n" ++ jsonDumps generated_json

/-- A well-formed extraction payload used as concrete scenario input: the
stubbed result shape of the spec's synthetic-text scenario, reduced to empty
character and relation lists. -/
def sampleExtraction : JValue :=
  .vObj [("characters", .vArr []), ("relations", .vArr []),
         ("summary", .vStr "A short story.")]

/-- A well-formed validation verdict used as concrete scenario input. -/
def sampleVerdict : JValue :=
  .vObj [("known_story", .vBool true), ("issues", .vArr []),
         ("notes", .vStr "looks right"), ("score", .vNum 7)]

/-- Collaborator outcomes in which every external step succeeds. -/
def okDeps : AnalyzeDeps :=
  ⟨.ok ⟨"Pride and Prejudice", "Jane Austen"⟩, .ok "It is a truth universally acknowledged...",
   "api-key", (fun _ => .ok sampleExtraction), (fun _ => .ok sampleVerdict), .ok ()⟩

/-- Collaborator outcomes in which only the db.add_search write fails. -/
def badSearchDeps : AnalyzeDeps :=
  ⟨.ok ⟨"Pride and Prejudice", "Jane Austen"⟩, .ok "It is a truth universally acknowledged...",
   "api-key", (fun _ => .ok sampleExtraction), (fun _ => .ok sampleVerdict),
   .error (.otherError "database is locked")⟩

/-- A bibliographic page lacking the og:title meta tag. -/
def noTitlePage : MetaPage := ⟨none, some "Jane Austen"⟩

/-- Collaborator outcomes in which the metadata scrape hits noTitlePage and
everything else succeeds. -/
def metaFailDeps : AnalyzeDeps :=
  ⟨fetch_gutenberg_metadata noTitlePage, .ok "It is a truth universally acknowledged...",
   "api-key", (fun _ => .ok sampleExtraction), (fun _ => .ok sampleVerdict), .ok ()⟩

/-- String append is associative (used to factor the validation prompt around
its story segment). -/
theorem string_append_assoc (a b c : String) : (a ++ b) ++ c = a ++ (b ++ c) := by
  cases a with
  | mk da =>
    cases b with
    | mk db =>
      cases c with
      | mk dc =>
        show String.mk ((da ++ db) ++ dc) = String.mk (da ++ (db ++ dc))
        rw [List.append_assoc]

/-- One-step unfolding of the retry loop when at least one iteration remains. -/
theorem retryGo_step {α : Type} (delay : Nat) (body : Nat → Except PyErr α)
    (attempt remaining : Nat) :
    retryGo delay body attempt (remaining + 1) =
      match body attempt with
      | .ok v => ⟨1, [], .ok v⟩
      | .error e =>
        match remaining with
        | 0 => ⟨1, [], .error e⟩
        | r + 1 =>
          let rest := retryGo delay body (attempt + 1) (r + 1)
          ⟨rest.attempts + 1, delay :: rest.sleeps, rest.outcome⟩ :=
  retryGo.eq_2 delay body attempt remaining

/-- When every available attempt fails, the retry loop enters the body once
per available iteration, sleeps between consecutive attempts only, and
propagates the error of the final attempt. -/
theorem retryGo_all_fail {α : Type} (delay : Nat) (body : Nat → Except PyErr α)
    (f : Nat → PyErr) :
    ∀ (remaining attempt : Nat), 0 < remaining →
      (∀ j, j < remaining → body (attempt + j) = .error (f (attempt + j))) →
      retryGo delay body attempt remaining =
        ⟨remaining, List.replicate (remaining - 1) delay,
         .error (f (attempt + (remaining - 1)))⟩ := by
  intro remaining
  induction remaining with
  | zero => intro attempt h; omega
  | succ r ih =>
    intro attempt _ hfail
    have hb : body attempt = .error (f attempt) := by
      have h0 := hfail 0 (Nat.succ_pos r)
      simpa using h0
    cases r with
    | zero =>
      simp [retryGo, hb]
    | succ r2 =>
      have hrest := ih (attempt + 1) (Nat.succ_pos r2) (by
        intro j hj
        have heq : attempt + 1 + j = attempt + (j + 1) := by omega
        rw [heq]
        exact hfail (j + 1) (by omega))
      have hidx : attempt + 1 + (r2 + 1 - 1) = attempt + (r2 + 1 + 1 - 1) := by omega
      rw [hidx] at hrest
      simp [retryGo, hb, hrest, List.replicate_succ]

/-- When the first i attempts fail and attempt i succeeds, the retry loop
returns that value after i + 1 body entries and i sleeps. -/
theorem retryGo_success_at {α : Type} (delay : Nat) (body : Nat → Except PyErr α)
    (v : α) :
    ∀ (i attempt remaining : Nat), i < remaining →
      (∀ j, j < i → ∃ e, body (attempt + j) = .error e) →
      body (attempt + i) = .ok v →
      retryGo delay body attempt remaining =
        ⟨i + 1, List.replicate i delay, .ok v⟩ := by
  intro i
  induction i with
  | zero =>
    intro attempt remaining hlt _ hok
    cases remaining with
    | zero => omega
    | succ r =>
      rw [Nat.add_zero] at hok
      simp [retryGo, hok]
  | succ i2 ih =>
    intro attempt remaining hlt hfail hok
    obtain ⟨e0, he0⟩ := hfail 0 (Nat.succ_pos i2)
    rw [Nat.add_zero] at he0
    cases remaining with
    | zero => omega
    | succ r =>
      cases r with
      | zero => omega
      | succ r2 =>
        have hrest := ih (attempt + 1) (r2 + 1) (by omega)
          (by
            intro j hj
            obtain ⟨e, he⟩ := hfail (j + 1) (by omega)
            have heq : attempt + 1 + j = attempt + (j + 1) := by omega
            rw [heq]
            exact ⟨e, he⟩)
          (by
            have heq : attempt + 1 + i2 = attempt + (i2 + 1) := by omega
            rw [heq]
            exact hok)
        simp [retryGo, he0, hrest, List.replicate_succ]

/-- A value the retry loop surfaces as success was produced by some body
attempt. -/
theorem retryGo_ok_from_body {α : Type} (delay : Nat) (body : Nat → Except PyErr α)
    (v : α) :
    ∀ (remaining attempt : Nat),
      (retryGo delay body attempt remaining).outcome = .ok v →
      ∃ i, body i = .ok v := by
  intro remaining
  induction remaining with
  | zero => intro attempt h; exact Except.noConfusion h
  | succ r ih =>
    intro attempt h
    rw [retryGo_step] at h
    cases hb : body attempt with
    | ok w =>
      rw [hb] at h
      dsimp only at h
      refine ⟨attempt, ?_⟩
      rw [hb, h]
    | error e =>
      rw [hb] at h
      cases r with
      | zero =>
        dsimp only at h
        exact Except.noConfusion h
      | succ r2 =>
        dsimp only at h
        exact ih (attempt + 1) h

/-- A successful analyze_text attempt only ever returns a payload whose top
level is a mapping: the isinstance check rejects everything else. -/
theorem analyzeTextAttempt_ok {oracle : Nat → Except PyErr JValue} {i : Nat}
    {v : JValue} (h : analyzeTextAttempt oracle i = .ok v) : v.isObj = true := by
  unfold analyzeTextAttempt at h
  cases ho : oracle i with
  | error e =>
    rw [ho] at h
    exact Except.noConfusion h
  | ok parsed =>
    rw [ho] at h
    dsimp only at h
    cases hp : parsed.isObj with
    | true =>
      rw [hp] at h
      simp at h
      rw [← h]
      exact hp
    | false =>
      rw [hp] at h
      simp at h

/-- C1: for every extraction or validation invocation in which every attempt
fails, the orchestrator makes exactly 5 attempts with exactly 4 inter-attempt
delays of 5 time units each (never a delay after the final attempt) and then
propagates the failure carrying the last underlying cause; when an attempt
succeeds (in particular the first), it returns immediately with no further
attempts and no further delays. -/
theorem c1_retry_bound_and_delay (key model : String)
    (oA oV : Nat → Except PyErr JValue) (f g : Nat → PyErr) :
    ((∀ i, i < 5 → analyzeTextAttempt oA i = .error (f i)) →
      analyze_text (PlotThePlot.make key model) oA = ⟨5, [5, 5, 5, 5], .error (f 4)⟩)
    ∧ ((∀ i, i < 5 → validateAttempt oV i = .error (g i)) →
      ∀ (t : String) (r : JValue) (md : Metadata),
        validate_json (PlotThePlot.make key model) t r md oV =
          (validate_prompt t r md, ⟨5, [5, 5, 5, 5], .error (g 4)⟩, r))
    ∧ (∀ (i : Nat) (v : JValue), i < 5 →
      (∀ j, j < i → ∃ e, analyzeTextAttempt oA j = .error e) →
      analyzeTextAttempt oA i = .ok v →
      analyze_text (PlotThePlot.make key model) oA = ⟨i + 1, List.replicate i 5, .ok v⟩)
    ∧ (∀ (i : Nat) (v : JValue) (t : String) (r : JValue) (md : Metadata), i < 5 →
      (∀ j, j < i → ∃ e, validateAttempt oV j = .error e) →
      validateAttempt oV i = .ok v →
      validate_json (PlotThePlot.make key model) t r md oV =
        (validate_prompt t r md, ⟨i + 1, List.replicate i 5, .ok v⟩, r)) := by
  refine ⟨?_, ?_, ?_, ?_⟩
  · intro hfail
    have h := retryGo_all_fail 5 (analyzeTextAttempt oA) f 5 0 (by omega)
      (by intro j hj; simpa using hfail j (by omega))
    simpa using h
  · intro hfail t r md
    have h := retryGo_all_fail 5 (validateAttempt oV) g 5 0 (by omega)
      (by intro j hj; simpa using hfail j (by omega))
    unfold validate_json
    rw [show retryLoop (PlotThePlot.make key model).max_retries
        (PlotThePlot.make key model).retry_delay (validateAttempt oV) =
        retryGo 5 (validateAttempt oV) 0 5 from rfl, h]
    rfl
  · intro i v hi hfail hok
    have h := retryGo_success_at 5 (analyzeTextAttempt oA) v i 0 5 hi
      (by intro j hj; simpa using hfail j hj) (by simpa using hok)
    simpa using h
  · intro i v t r md hi hfail hok
    have h := retryGo_success_at 5 (validateAttempt oV) v i 0 5 hi
      (by intro j hj; simpa using hfail j hj) (by simpa using hok)
    unfold validate_json
    rw [show retryLoop (PlotThePlot.make key model).max_retries
        (PlotThePlot.make key model).retry_delay (validateAttempt oV) =
        retryGo 5 (validateAttempt oV) 0 5 from rfl, h]

/-- C1 witness: with a network fault injected on every attempt, both
orchestrators make exactly 5 attempts, sleep 5 units exactly 4 times, and
propagate the last cause; with a sound first response, extraction returns
immediately after one attempt. -/
theorem c1_retry_bound_and_delay_witness :
    (analyze_text (PlotThePlot.make "api-key" "gemini-2.0-flash")
        (fun _ => .error (.otherError "network unreachable")) =
      ⟨5, [5, 5, 5, 5], .error (.otherError "network unreachable")⟩)
    ∧ (validate_json (PlotThePlot.make "api-key" "gemini-2.0-flash") "text"
        sampleExtraction ⟨"T", "A"⟩ (fun _ => .error (.otherError "network unreachable")) =
      (validate_prompt "text" sampleExtraction ⟨"T", "A"⟩,
       ⟨5, [5, 5, 5, 5], .error (.otherError "network unreachable")⟩, sampleExtraction))
    ∧ (analyze_text (PlotThePlot.make "api-key" "gemini-2.0-flash")
        (fun _ => .ok sampleExtraction) = ⟨1, [], .ok sampleExtraction⟩) :=
  ⟨(c1_retry_bound_and_delay "api-key" "gemini-2.0-flash"
      (fun _ => .error (.otherError "network unreachable"))
      (fun _ => .error (.otherError "network unreachable"))
      (fun _ => .otherError "network unreachable")
      (fun _ => .otherError "network unreachable")).1
    (fun i _ => rfl),
   (c1_retry_bound_and_delay "api-key" "gemini-2.0-flash"
      (fun _ => .error (.otherError "network unreachable"))
      (fun _ => .error (.otherError "network unreachable"))
      (fun _ => .otherError "network unreachable")
      (fun _ => .otherError "network unreachable")).2.1
    (fun i _ => rfl) "text" sampleExtraction ⟨"T", "A"⟩,
   (c1_retry_bound_and_delay "api-key" "gemini-2.0-flash"
      (fun _ => .ok sampleExtraction)
      (fun _ => .ok sampleExtraction)
      (fun _ => .otherError "unused") (fun _ => .otherError "unused")).2.2.1
    0 sampleExtraction (by omega) (fun j hj => absurd hj (by omega)) rfl⟩

/-- C2: the validation prompt factors as a fixed head (title/author preamble),
then exactly the first 8000 characters of the story text (the whole text
when it is shorter than 8000 characters), then the pretty-printed extraction
result; the text beyond the first 8000 characters never appears: the prompt
is invariant under any change of the story text that preserves its first
8000 characters. -/
theorem c2_validation_prompt_truncation (t : String) (r : JValue)
    (md : Metadata) :
    (validate_prompt t r md =
      validationPromptHead md ++ (pySlice t 8000 ++ validationPromptTail r))
    ∧ (pySlice t 8000).length ≤ 8000
    ∧ (t.length ≤ 8000 → pySlice t 8000 = t)
    ∧ (∀ t2 : String, pySlice t2 8000 = pySlice t 8000 →
        validate_prompt t2 r md = validate_prompt t r md) := by
  refine ⟨?_, ?_, ?_, ?_⟩
  · simp only [validate_prompt, validationPromptHead, validationPromptTail,
      string_append_assoc]
  · show (t.data.take 8000).length ≤ 8000
    rw [List.length_take]
    exact Nat.min_le_left _ _
  · intro h
    have h2 : t.data.take 8000 = t.data := List.take_of_length_le h
    show String.mk (t.data.take 8000) = t
    rw [h2]
  · intro t2 h
    simp only [validate_prompt]
    rw [h]

/-- C2 witness: for a short concrete text the truncation is the whole text,
and a text agreeing with it on the first 8000 characters yields the same
prompt. -/
theorem c2_validation_prompt_truncation_witness :
    pySlice "Alice loves Bob." 8000 = "Alice loves Bob."
    ∧ validate_prompt "Alice loves Bob." sampleExtraction
        ⟨"Pride and Prejudice", "Jane Austen"⟩ =
      validate_prompt "Alice loves Bob." sampleExtraction
        ⟨"Pride and Prejudice", "Jane Austen"⟩ :=
  ⟨(c2_validation_prompt_truncation "Alice loves Bob." sampleExtraction
      ⟨"Pride and Prejudice", "Jane Austen"⟩).2.2.1 (by decide),
   (c2_validation_prompt_truncation "Alice loves Bob." sampleExtraction
      ⟨"Pride and Prejudice", "Jane Austen"⟩).2.2.2 "Alice loves Bob." rfl⟩

/-- C3 counterexample: both the primary and the fallback response carry the
2xx status 204 with a body, yet fetch_gutenberg_text issues the fallback
request after the primary (2 attempts) and fails — contradicting the claim
that the fallback is requested only after a non-2xx primary response, that
the body of the first 2xx response is returned, and that failure occurs
exactly when both responses are non-2xx. -/
theorem c3_counterexample :
    (200 ≤ 204 ∧ 204 < 300)
    ∧ fetch_gutenberg_text (fun _ => ⟨204, "the body"⟩) 1342 =
        ([primary_url 1342, fallback_url 1342],
         .error (.valueError "Could not fetch text from Project Gutenberg.")) :=
  ⟨⟨by omega, by omega⟩, rfl⟩

/-- C3 (amended): for every book_id, fetch_gutenberg_text performs at most 2
network attempts: it requests the primary URL and, exactly when that
response's status is not 200, requests the fallback URL once; it returns
the body of the first response whose status is exactly 200, and fails with
the SourceUnavailable ValueError exactly when both statuses differ from
200, with no retry loop at this layer. -/
theorem c3_fetch_two_attempts (get : String → HttpResponse) (book_id : Int) :
    ((fetch_gutenberg_text get book_id).1.length ≤ 2)
    ∧ ((get (primary_url book_id)).status_code = 200 →
        fetch_gutenberg_text get book_id =
          ([primary_url book_id], .ok (get (primary_url book_id)).text))
    ∧ ((get (primary_url book_id)).status_code ≠ 200 →
        (get (fallback_url book_id)).status_code = 200 →
        fetch_gutenberg_text get book_id =
          ([primary_url book_id, fallback_url book_id],
           .ok (get (fallback_url book_id)).text))
    ∧ ((get (primary_url book_id)).status_code ≠ 200 →
        (get (fallback_url book_id)).status_code ≠ 200 →
        fetch_gutenberg_text get book_id =
          ([primary_url book_id, fallback_url book_id],
           .error (.valueError "Could not fetch text from Project Gutenberg."))) := by
  refine ⟨?_, ?_, ?_, ?_⟩
  · by_cases h1 : (get (primary_url book_id)).status_code = 200
    · simp [fetch_gutenberg_text, h1]
    · by_cases h2 : (get (fallback_url book_id)).status_code = 200
      · simp [fetch_gutenberg_text, h1, h2]
      · simp [fetch_gutenberg_text, h1, h2]
  · intro h1
    unfold fetch_gutenberg_text
    simp [h1]
  · intro h1 h2
    unfold fetch_gutenberg_text
    simp [h1, h2]
  · intro h1 h2
    unfold fetch_gutenberg_text
    simp [h1, h2]

/-- C3 witness: with 404 injected at both URLs, the fetch issues exactly the
two requests and fails with the SourceUnavailable ValueError. -/
theorem c3_fetch_two_attempts_witness :
    fetch_gutenberg_text (fun _ => ⟨404, "Not Found"⟩) 1342 =
      ([primary_url 1342, fallback_url 1342],
       .error (.valueError "Could not fetch text from Project Gutenberg.")) :=
  (c3_fetch_two_attempts (fun _ => ⟨404, "Not Found"⟩) 1342).2.2.2
    (by decide) (by decide)

/-- C4 counterexample: an object payload missing every required field of the
extraction schema (characters, relations, summary) is surfaced by
analyze_text as success on the first attempt — the orchestrator checks only
that the top level is a mapping, contradicting the claim that a value
missing a required field is never surfaced as success. -/
theorem c4_counterexample :
    (analyze_text (PlotThePlot.make "api-key" "gemini-2.0-flash")
        (fun _ => .ok (.vObj [("foo", .vNum 1)]))) =
      ⟨1, [], .ok (.vObj [("foo", .vNum 1)])⟩
    ∧ requiredTopLevel get_schema = ["characters", "relations", "summary"]
    ∧ jgetOpt "characters" (.vObj [("foo", .vNum 1)]) = none
    ∧ hasRequiredTopLevel get_schema (.vObj [("foo", .vNum 1)]) = false :=
  ⟨rfl, rfl, rfl, rfl⟩

/-- C4 (amended): every value the extraction orchestrator surfaces as success
has a mapping as its top level — the isinstance check retries anything else —
but conformance to the schema's required-field set is not checked by the
orchestrator and is not guaranteed: it holds only when the structured-output
channel itself delivers schema-conforming payloads. -/
theorem c4_success_is_mapping (p : PlotThePlot)
    (oracle : Nat → Except PyErr JValue) (v : JValue)
    (h : (analyze_text p oracle).outcome = .ok v) : v.isObj = true := by
  obtain ⟨i, hi⟩ := retryGo_ok_from_body p.retry_delay
    (analyzeTextAttempt oracle) v p.max_retries 0 h
  exact analyzeTextAttempt_ok hi

/-- C4 witness: a concrete successful run, whose surfaced value is an object. -/
theorem c4_success_is_mapping_witness :
    ((analyze_text (PlotThePlot.make "api-key" "gemini-2.0-flash")
        (fun _ => .ok sampleExtraction)).outcome = .ok sampleExtraction)
    ∧ sampleExtraction.isObj = true :=
  ⟨rfl, c4_success_is_mapping (PlotThePlot.make "api-key" "gemini-2.0-flash")
    (fun _ => .ok sampleExtraction) sampleExtraction rfl⟩

/-- C5 counterexample: in a fully successful validating run, the dict object
returned by analyze_text — the request's ExtractionResult — is mutated in
place by the coordinator after construction: at construction it has no
"validation" key, by response time the same object carries the validation
verdict (and a "title" key), so its two snapshots differ. -/
theorem c5_counterexample :
    ((analyze okDeps (.vStr "1342") (.vBool true) 1).resultAtConstruction.bind
        (jgetOpt "validation") = none)
    ∧ ((analyze okDeps (.vStr "1342") (.vBool true) 1).resultFinal.bind
        (jgetOpt "validation") = some sampleVerdict)
    ∧ (analyze okDeps (.vStr "1342") (.vBool true) 1).resultAtConstruction ≠
        (analyze okDeps (.vStr "1342") (.vBool true) 1).resultFinal := by
  refine ⟨rfl, rfl, ?_⟩
  intro h
  have h2 := congrArg (fun o => (o.bind (jgetOpt "validation")).isSome) h
  exact Bool.noConfusion h2

/-- C5 (amended): the validation step itself never changes the
ExtractionResult: validate_json leaves its generated_json argument exactly as
it received it, and the prompt it sends is a function of the (text, result,
metadata) triple alone, so re-invoking validation with the same triple finds
the same ExtractionResult and builds the same prompt; the in-place mutation
happens later, in the coordinator's attachment of the "validation" and
"title" keys. -/
theorem c5_validate_preserves_result (p : PlotThePlot) (t : String)
    (r : JValue) (md : Metadata) (oracle : Nat → Except PyErr JValue) :
    ((validate_json p t r md oracle).2.2 = r)
    ∧ ((validate_json p t r md oracle).1 = validate_prompt t r md)
    ∧ (∀ oracle2 : Nat → Except PyErr JValue,
        (validate_json p t r md oracle2).1 = (validate_json p t r md oracle).1
        ∧ (validate_json p t r md oracle2).2.2 = (validate_json p t r md oracle).2.2) :=
  ⟨rfl, rfl, fun _ => ⟨rfl, rfl⟩⟩

/-- C6: the coordinator enters the validation step only when the caller set a
truthy validate flag, and only after fetch-metadata, fetch-text and
extraction have all completed successfully (the event order places the
extraction call strictly before the validation call); conversely, with the
flag set, validation is invoked whenever extraction completes successfully,
and with the flag unset no validation call is ever made and a fully
successful run reaches the terminal 200 success state. -/
theorem c6_validation_gating (deps : AnalyzeDeps) (book flag : JValue)
    (uid : Int) :
    (Ev.llmValidateEv ∈ (analyze deps book flag uid).events →
      pyTruthy flag = true
      ∧ (analyze deps book flag uid).events.take 4 =
          [Ev.fetchMetadataEv, Ev.fetchTextEv, Ev.llmExtractEv, Ev.llmValidateEv]
      ∧ ∃ r, (analyze_text (PlotThePlot.make deps.gemini_api_key "gemini-2.0-flash")
          deps.extractOracle).outcome = .ok r)
    ∧ (pyTruthy flag = false →
        Ev.llmValidateEv ∉ (analyze deps book flag uid).events)
    ∧ (pyTruthy book = true → pyTruthy flag = true →
      ∀ (md : Metadata) (text : String) (r : JValue),
        deps.fetchMetadata = .ok md → deps.fetchText = .ok text →
        (analyze_text (PlotThePlot.make deps.gemini_api_key "gemini-2.0-flash")
          deps.extractOracle).outcome = .ok r →
        Ev.llmValidateEv ∈ (analyze deps book flag uid).events)
    ∧ (pyTruthy book = true → pyTruthy flag = false →
      ∀ (md : Metadata) (text : String) (r : JValue),
        deps.fetchMetadata = .ok md → deps.fetchText = .ok text →
        (analyze_text (PlotThePlot.make deps.gemini_api_key "gemini-2.0-flash")
          deps.extractOracle).outcome = .ok r →
        deps.addSearch = .ok () →
        (analyze deps book flag uid).status = 200
        ∧ Ev.llmValidateEv ∉ (analyze deps book flag uid).events) := by
  cases hbook : pyTruthy book with
  | false =>
    refine ⟨?_, ?_, ?_, ?_⟩
    · intro hmem
      simp [analyze, hbook] at hmem
    · intro _
      simp [analyze, hbook]
    · intro hb
      exact Bool.noConfusion hb
    · intro hb
      exact Bool.noConfusion hb
  | true =>
    cases hm : deps.fetchMetadata with
    | error e =>
      refine ⟨?_, ?_, ?_, ?_⟩
      · intro hmem
        simp [analyze, hbook, hm] at hmem
      · intro _
        simp [analyze, hbook, hm]
      · intro _ _ md text r hmd _ _
        exact Except.noConfusion hmd
      · intro _ _ md text r hmd _ _ _
        exact Except.noConfusion hmd
    | ok md0 =>
      cases ht : deps.fetchText with
      | error e =>
        refine ⟨?_, ?_, ?_, ?_⟩
        · intro hmem
          simp [analyze, hbook, hm, ht] at hmem
        · intro _
          simp [analyze, hbook, hm, ht]
        · intro _ _ md text r _ htxt _
          exact Except.noConfusion htxt
        · intro _ _ md text r _ htxt _ _
          exact Except.noConfusion htxt
      | ok text0 =>
        cases hr : (analyze_text (PlotThePlot.make deps.gemini_api_key
            "gemini-2.0-flash") deps.extractOracle).outcome with
        | error e =>
          refine ⟨?_, ?_, ?_, ?_⟩
          · intro hmem
            simp [analyze, hbook, hm, ht, hr] at hmem
          · intro _
            simp [analyze, hbook, hm, ht, hr]
          · intro _ _ md text r _ _ hrok
            exact Except.noConfusion hrok
          · intro _ _ md text r _ _ hrok _
            exact Except.noConfusion hrok
        | ok r0 =>
          cases hflag : pyTruthy flag with
          | false =>
            cases hs : deps.addSearch with
            | error e =>
              refine ⟨?_, ?_, ?_, ?_⟩
              · intro hmem
                simp [analyze, hbook, hm, ht, hr, hflag, hs] at hmem
              · intro _
                simp [analyze, hbook, hm, ht, hr, hflag, hs]
              · intro _ hf
                exact Bool.noConfusion hf
              · intro _ _ md text r _ _ _ hsok
                exact Except.noConfusion hsok
            | ok u =>
              refine ⟨?_, ?_, ?_, ?_⟩
              · intro hmem
                simp [analyze, hbook, hm, ht, hr, hflag, hs] at hmem
              · intro _
                simp [analyze, hbook, hm, ht, hr, hflag, hs]
              · intro _ hf
                exact Bool.noConfusion hf
              · intro _ _ md text r _ _ _ _
                constructor
                · simp [analyze, hbook, hm, ht, hr, hflag, hs]
                · simp [analyze, hbook, hm, ht, hr, hflag, hs]
          | true =>
            cases hv : (validate_json (PlotThePlot.make deps.gemini_api_key
                "gemini-2.0-flash") text0 r0 md0 deps.validateOracle).2.1.outcome with
            | error e =>
              refine ⟨?_, ?_, ?_, ?_⟩
              · intro _
                refine ⟨rfl, ?_, ⟨r0, rfl⟩⟩
                simp [analyze, hbook, hm, ht, hr, hflag, hv]
              · intro hf
                exact Bool.noConfusion hf
              · intro _ _ md text r _ _ _
                simp [analyze, hbook, hm, ht, hr, hflag, hv]
              · intro _ hf
                exact Bool.noConfusion hf
            | ok v0 =>
              cases hs : deps.addSearch with
              | error e =>
                refine ⟨?_, ?_, ?_, ?_⟩
                · intro _
                  refine ⟨rfl, ?_, ⟨r0, rfl⟩⟩
                  simp [analyze, hbook, hm, ht, hr, hflag, hv, hs]
                · intro hf
                  exact Bool.noConfusion hf
                · intro _ _ md text r _ _ _
                  simp [analyze, hbook, hm, ht, hr, hflag, hv, hs]
                · intro _ hf
                  exact Bool.noConfusion hf
              | ok u =>
                refine ⟨?_, ?_, ?_, ?_⟩
                · intro _
                  refine ⟨rfl, ?_, ⟨r0, rfl⟩⟩
                  simp [analyze, hbook, hm, ht, hr, hflag, hv, hs]
                · intro hf
                  exact Bool.noConfusion hf
                · intro _ _ md text r _ _ _
                  simp [analyze, hbook, hm, ht, hr, hflag, hv, hs]
                · intro _ hf
                  exact Bool.noConfusion hf

/-- C6 witness: with all collaborators succeeding, a validate=true request
invokes validation (after extraction), and a validate=false request reaches
the 200 terminal state with no validation call. -/
theorem c6_validation_gating_witness :
    Ev.llmValidateEv ∈ (analyze okDeps (.vStr "1342") (.vBool true) 1).events
    ∧ ((analyze okDeps (.vStr "1342") (.vBool false) 1).status = 200
       ∧ Ev.llmValidateEv ∉ (analyze okDeps (.vStr "1342") (.vBool false) 1).events) :=
  ⟨(c6_validation_gating okDeps (.vStr "1342") (.vBool true) 1).2.2.1 rfl rfl
      ⟨"Pride and Prejudice", "Jane Austen"⟩
      "It is a truth universally acknowledged..." sampleExtraction rfl rfl rfl,
   (c6_validation_gating okDeps (.vStr "1342") (.vBool false) 1).2.2.2 rfl rfl
      ⟨"Pride and Prejudice", "Jane Austen"⟩
      "It is a truth universally acknowledged..." sampleExtraction rfl rfl rfl rfl⟩

/-- C7 counterexample: for a bibliographic page lacking the og:title meta tag,
fetch_gutenberg_metadata raises a TypeError (not a ValueError), and the
analyze handler's generic except branch surfaces it as a 500 reply — not the
400-class error the claim states (contrast SourceUnavailable, a ValueError
mapped to 400). -/
theorem c7_counterexample :
    fetch_gutenberg_metadata noTitlePage =
      .error (.otherError "TypeError: NoneType object is not subscriptable")
    ∧ (analyze metaFailDeps (.vStr "1342") (.vBool false) 1).status = 500
    ∧ (analyze metaFailDeps (.vStr "1342") (.vBool false) 1).status ≠ 400 :=
  ⟨rfl, rfl, by
    intro h
    rw [show (analyze metaFailDeps (.vStr "1342") (.vBool false) 1).status = 500
      from rfl] at h
    exact absurd h (by decide)⟩

/-- C7 (amended): for every bibliographic page lacking the og:title meta tag
or the author-role-tagged link, fetch_gutenberg_metadata fails — but with a
TypeError/AttributeError rather than a ValueError — and the coordinator
surfaces this failure as a generic 500-class error, unlike the
SourceUnavailable case, which is a ValueError surfaced as a 400-class
error. -/
theorem c7_metadata_failure_is_500 (page : MetaPage)
    (hpage : page.ogTitle = none ∨ page.marcrelAut = none) :
    (∃ m, fetch_gutenberg_metadata page = .error (.otherError m))
    ∧ (∀ (deps : AnalyzeDeps) (book flag : JValue) (uid : Int) (m : String),
        pyTruthy book = true →
        deps.fetchMetadata = .error (.otherError m) →
        (analyze deps book flag uid).status = 500
        ∧ (analyze deps book flag uid).body =
            errorBody "An unexpected error occurred while analyzing the book. Please try again later.") := by
  constructor
  · cases hog : page.ogTitle with
    | none =>
      refine ⟨"TypeError: NoneType object is not subscriptable", ?_⟩
      unfold fetch_gutenberg_metadata
      rw [hog]
    | some t =>
      cases haut : page.marcrelAut with
      | none =>
        refine ⟨"AttributeError: NoneType object has no attribute get_text", ?_⟩
        unfold fetch_gutenberg_metadata
        rw [hog, haut]
      | some a =>
        rcases hpage with h | h
        · rw [hog] at h
          exact Option.noConfusion h
        · rw [haut] at h
          exact Option.noConfusion h
  · intro deps book flag uid m hbook hmd
    constructor
    · simp [analyze, hbook, hmd, errStatus]
    · simp [analyze, hbook, hmd, errReplyBody]

/-- C7 witness: the concrete page without an og:title meta tag makes
fetch_gutenberg_metadata fail, and the analyze run over it replies 500 with
the generic message. -/
theorem c7_metadata_failure_is_500_witness :
    (∃ m, fetch_gutenberg_metadata noTitlePage = .error (.otherError m))
    ∧ ((analyze metaFailDeps (.vStr "1342") (.vBool false) 1).status = 500
       ∧ (analyze metaFailDeps (.vStr "1342") (.vBool false) 1).body =
           errorBody "An unexpected error occurred while analyzing the book. Please try again later.") :=
  ⟨(c7_metadata_failure_is_500 noTitlePage (Or.inl rfl)).1,
   (c7_metadata_failure_is_500 noTitlePage (Or.inl rfl)).2 metaFailDeps
     (.vStr "1342") (.vBool false) 1
     "TypeError: NoneType object is not subscriptable" rfl rfl⟩

/-- C8 counterexample: an extraction payload missing required fields of the
extraction schema is returned by analyze_text as success on the first
attempt with no retry (not treated as a failure at all), and the validation
orchestrator surfaces even a non-object payload as success on the first
attempt — contradicting the claim that in both orchestrators such payloads
are retried like network failures. -/
theorem c8_counterexample :
    hasRequiredTopLevel get_schema (.vObj [("summary", .vStr "s")]) = false
    ∧ analyze_text (PlotThePlot.make "api-key" "gemini-2.0-flash")
        (fun _ => .ok (.vObj [("summary", .vStr "s")])) =
      ⟨1, [], .ok (.vObj [("summary", .vStr "s")])⟩
    ∧ (JValue.vStr "not an object").isObj = false
    ∧ (validate_json (PlotThePlot.make "api-key" "gemini-2.0-flash") "text"
        sampleExtraction ⟨"T", "A"⟩ (fun _ => .ok (.vStr "not an object"))).2.1 =
      ⟨1, [], .ok (.vStr "not an object")⟩ :=
  ⟨rfl, rfl, rfl, rfl⟩

/-- C8 (amended): in the extraction orchestrator, a non-object payload raises
the ValueError and is retried exactly like a network failure — same 5
attempts and same 4 fixed delays when injected on every attempt, with the
ValueError propagated on exhaustion; an object payload missing required
fields is not treated as a failure and is returned as success on its
attempt; the validation orchestrator applies no payload-shape check at all
and surfaces any payload, object or not, as success. -/
theorem c8_malformed_payload_handling (key model : String) :
    (∀ w : JValue, w.isObj = false →
      analyze_text (PlotThePlot.make key model) (fun _ => .ok w) =
        ⟨5, [5, 5, 5, 5], .error (.valueError "Response is not a JSON object.")⟩)
    ∧ (∀ e : PyErr,
      analyze_text (PlotThePlot.make key model) (fun _ => .error e) =
        ⟨5, [5, 5, 5, 5], .error e⟩)
    ∧ (∀ w : JValue, w.isObj = true →
      analyze_text (PlotThePlot.make key model) (fun _ => .ok w) = ⟨1, [], .ok w⟩)
    ∧ (∀ (w : JValue) (t : String) (r : JValue) (md : Metadata),
      (validate_json (PlotThePlot.make key model) t r md (fun _ => .ok w)).2.1 =
        ⟨1, [], .ok w⟩) := by
  refine ⟨?_, ?_, ?_, ?_⟩
  · intro w hw
    have h := retryGo_all_fail 5
      (analyzeTextAttempt (fun _ => .ok w))
      (fun _ => .valueError "Response is not a JSON object.") 5 0 (by omega)
      (by intro j hj; simp [analyzeTextAttempt, hw])
    simpa using h
  · intro e
    have h := retryGo_all_fail 5
      (analyzeTextAttempt (fun _ => .error e)) (fun _ => e) 5 0 (by omega)
      (fun j hj => rfl)
    simpa using h
  · intro w hw
    have h := retryGo_success_at 5 (analyzeTextAttempt (fun _ => .ok w)) w 0 0 5
      (by omega) (fun j hj => absurd hj (by omega))
      (by simp [analyzeTextAttempt, hw])
    simpa using h
  · intro w t r md
    have h := retryGo_success_at 5 (validateAttempt (fun _ => .ok w)) w 0 0 5
      (by omega) (fun j hj => absurd hj (by omega)) rfl
    show retryLoop 5 5 (validateAttempt (fun _ => .ok w)) = ⟨1, [], .ok w⟩
    simpa using h

/-- C8 witness: concrete runs of the three behaviours — a non-object payload
retried to exhaustion like a network error, a required-field-free object
accepted at once, and a non-object accepted at once by the validation
orchestrator. -/
theorem c8_malformed_payload_handling_witness :
    analyze_text (PlotThePlot.make "api-key" "gemini-2.0-flash")
        (fun _ => .ok (.vStr "free text")) =
      ⟨5, [5, 5, 5, 5], .error (.valueError "Response is not a JSON object.")⟩
    ∧ analyze_text (PlotThePlot.make "api-key" "gemini-2.0-flash")
        (fun _ => .ok (.vObj [])) = ⟨1, [], .ok (.vObj [])⟩
    ∧ (validate_json (PlotThePlot.make "api-key" "gemini-2.0-flash") "text"
        sampleExtraction ⟨"T", "A"⟩ (fun _ => .ok (.vStr "free text"))).2.1 =
      ⟨1, [], .ok (.vStr "free text")⟩ :=
  ⟨(c8_malformed_payload_handling "api-key" "gemini-2.0-flash").1
      (.vStr "free text") rfl,
   (c8_malformed_payload_handling "api-key" "gemini-2.0-flash").2.2.1
      (.vObj []) rfl,
   (c8_malformed_payload_handling "api-key" "gemini-2.0-flash").2.2.2
      (.vStr "free text") "text" sampleExtraction ⟨"T", "A"⟩⟩

/-- C9 counterexample: a run in which fetch, extraction and validation all
succeed but db.add_search raises sits inside the handler's try block, so the
coordinator returns the generic 500 error reply instead of the success
response — the search-record write is not best-effort in this code. -/
theorem c9_counterexample :
    badSearchDeps.addSearch = .error (.otherError "database is locked")
    ∧ (analyze badSearchDeps (.vStr "1342") (.vBool true) 1).status = 500
    ∧ (analyze badSearchDeps (.vStr "1342") (.vBool true) 1).status ≠ 200
    ∧ (analyze badSearchDeps (.vStr "1342") (.vBool true) 1).body =
        errorBody "An unexpected error occurred while analyzing the book. Please try again later." :=
  ⟨rfl, rfl, by
    intro h
    rw [show (analyze badSearchDeps (.vStr "1342") (.vBool true) 1).status = 500
      from rfl] at h
    exact absurd h (by decide), rfl⟩

/-- C9 (amended): when fetch, extraction and (when requested) validation all
succeed but the db.add_search write fails, the coordinator does not return
the success response: the failure propagates out of the try block and the
handler replies with an error (500 for a non-ValueError database failure) —
the RECORD_SEARCH write is coupled to the main flow, not best-effort. -/
theorem c9_search_write_failure_fails_response (deps : AnalyzeDeps)
    (book flag : JValue) (uid : Int) (md : Metadata) (text : String)
    (r w : JValue) (m : String)
    (hbook : pyTruthy book = true)
    (hmd : deps.fetchMetadata = .ok md)
    (htext : deps.fetchText = .ok text)
    (hrun : (analyze_text (PlotThePlot.make deps.gemini_api_key "gemini-2.0-flash")
        deps.extractOracle).outcome = .ok r)
    (hs : deps.addSearch = .error (.otherError m)) :
    (pyTruthy flag = false →
      (analyze deps book flag uid).status = 500
      ∧ (analyze deps book flag uid).status ≠ 200
      ∧ Ev.recordSearchEv ∈ (analyze deps book flag uid).events)
    ∧ (pyTruthy flag = true →
      (validate_json (PlotThePlot.make deps.gemini_api_key "gemini-2.0-flash")
          text r md deps.validateOracle).2.1.outcome = .ok w →
      (analyze deps book flag uid).status = 500
      ∧ (analyze deps book flag uid).status ≠ 200
      ∧ Ev.recordSearchEv ∈ (analyze deps book flag uid).events) := by
  constructor
  · intro hflag
    have hst : (analyze deps book flag uid).status = 500 := by
      simp [analyze, hbook, hmd, htext, hrun, hflag, hs, errStatus]
    refine ⟨hst, by rw [hst]; decide, ?_⟩
    simp [analyze, hbook, hmd, htext, hrun, hflag, hs]
  · intro hflag hval
    have hst : (analyze deps book flag uid).status = 500 := by
      simp [analyze, hbook, hmd, htext, hrun, hflag, hval, hs, errStatus]
    refine ⟨hst, by rw [hst]; decide, ?_⟩
    simp [analyze, hbook, hmd, htext, hrun, hflag, hval, hs]

/-- C9 witness: the concrete failing-write run, through the no-validation
path of the amended theorem. -/
theorem c9_search_write_failure_fails_response_witness :
    (analyze badSearchDeps (.vStr "1342") (.vBool false) 1).status = 500
    ∧ (analyze badSearchDeps (.vStr "1342") (.vBool false) 1).status ≠ 200
    ∧ Ev.recordSearchEv ∈ (analyze badSearchDeps (.vStr "1342") (.vBool false) 1).events :=
  (c9_search_write_failure_fails_response badSearchDeps (.vStr "1342")
    (.vBool false) 1 ⟨"Pride and Prejudice", "Jane Austen"⟩
    "It is a truth universally acknowledged..." sampleExtraction sampleVerdict
    "database is locked" rfl rfl rfl rfl rfl).1 rfl

/-- C10: for every authenticated analyze request whose body has no book_id
(absent — arriving as None — or any falsy value), the handler replies 400
with the message asking for a book ID, and issues no external call at all:
no metadata fetch, no text fetch, no LLM call, no search-record write. -/
theorem c10_missing_book_id (deps : AnalyzeDeps) (book flag : JValue)
    (uid : Int) (h : pyTruthy book = false) :
    analyze deps book flag uid =
      ⟨[], 400, errorBody "Please provide a book ID to analyze", none, none⟩ := by
  simp [analyze, h]

/-- C10 witness: both an absent book_id (None) and a falsy one (empty string)
produce the bare 400 reply with an empty event trace. -/
theorem c10_missing_book_id_witness :
    pyTruthy JValue.vNull = false
    ∧ analyze okDeps JValue.vNull (.vBool false) 1 =
        ⟨[], 400, errorBody "Please provide a book ID to analyze", none, none⟩
    ∧ pyTruthy (JValue.vStr "") = false
    ∧ analyze okDeps (.vStr "") (.vBool true) 1 =
        ⟨[], 400, errorBody "Please provide a book ID to analyze", none, none⟩ :=
  ⟨rfl, c10_missing_book_id okDeps JValue.vNull (.vBool false) 1 rfl, rfl,
   c10_missing_book_id okDeps (.vStr "") (.vBool true) 1 rfl⟩
